import Mathlib

/-!
Verification of the conversation/message orchestration flow of the
chatbot backend.  The definitions below are a shallow embedding of the
TypeScript sources:

* `src/src/functions/sendMessage.ts` — the HTTP orchestrator
  (`sendMessage`, `saveMessageToDatabase`, `saveContactDetails`);
* `src/unnamed/part_001` — the OpenAI handler (citation stripping in
  `processOpenAIMessage`, message-window selection);
* `src/unnamed/part_002` — the Slack event processor
  (`processSlackBotMessage`, `checkGetContactID`, `checkGetConversation`).

Machine integers are modelled as `Int` (JS numbers used as integral
timestamps); the one place where a JS number can be `-Infinity`
(`Math.max()` of an empty spread) is modelled by `Option Int` with
`none` standing for `-Infinity`.  Asynchronous database calls are
modelled by explicit state passing over `DBState`; the assistant
provider and the JSON parser are oracles passed in as data/functions.
Randomly generated `createID` identifiers are passed in as `fresh`
parameters where the code creates rows, and are omitted from message
rows (no orchestration logic reads a message id).
-/

namespace Chatbot

/-- JS number restricted to the values that reach the timestamp columns:
an integer, or `-Infinity` (`none`), which `Math.max()` of an empty
spread produces. -/
abbrev JsNum := Option Int

/-- `Math.max(...l)` for a list of integral JS numbers: `-Infinity`
(`none`) on the empty list. -/
def jsMathMax (l : List Int) : JsNum :=
  l.foldr (fun a b => match b with
    | none => some a
    | some c => some (max a c)) none

/-- `MessageCreatorType` from `models/Database` (string enum
CONTACT | USER | AGENT). -/
inductive MessageCreatorType where
  | CONTACT
  | USER
  | AGENT
deriving DecidableEq, Repr

/-- `ConversationStatusType` from `models/Database` (OPEN | CLOSED | DRAFT). -/
inductive ConversationStatusType where
  | OPEN
  | CLOSED
  | DRAFT
deriving DecidableEq, Repr

/-- `ConversationChannelType` from `models/Database`. -/
inductive ConversationChannelType where
  | WEB
  | SLACK
deriving DecidableEq, Repr

/-- An organisation row, restricted to the columns this flow reads. -/
structure Organisation where
  id : String
  assistant_id : String
deriving DecidableEq, Repr

/-- A contact row (`contacts` table).  `name`/`email`/`phone` are
nullable and filled in progressively; `slack_id` links a Slack sender. -/
structure Contact where
  id : String
  organisation_id : String
  name : Option String
  email : Option String
  phone : Option String
  slack_id : Option String
deriving DecidableEq, Repr

/-- A conversation row (`conversations` table), the columns of
`NewConversation` in the Slack processor.  `last_message_at` is a
`JsNum` because `saveMessageToDatabase` can write `Math.max()` of an
empty list into it. -/
structure Conversation where
  id : String
  organisation_id : String
  contact_id : String
  created_at : Int
  last_message_at : JsNum
  interrupted : Bool
  status : ConversationStatusType
  sentiment : Int
  channel : ConversationChannelType
  channel_id : String
deriving DecidableEq, Repr

/-- A message row (`messages` table).  The `id` (random `createID`) and
the constant `version` marker are write-only in this flow and omitted. -/
structure Message where
  conversation_id : String
  message : String
  creator : MessageCreatorType
  created_at : Int
deriving DecidableEq, Repr

/-- Modelled from the spec: the `MessageResponse` model class is not
under `src/`.  Per the spec and its uses it carries the conversation
id, the message text, the creator, and `created_at` (the fourth
constructor argument); citation metadata is not read by any property
proved here and is omitted. -/
structure MessageResponse where
  conversation_id : String
  message : String
  creator : MessageCreatorType
  created_at : Int
deriving DecidableEq, Repr

/-- The relational store visible to this flow. -/
structure DBState where
  organisations : List Organisation
  contacts : List Contact
  conversations : List Conversation
  messages : List Message
deriving DecidableEq, Repr

/-- The spread `{...r} as NewMessage` in `saveMessageToDatabase`:
a `MessageResponse` reinterpreted as a message row. -/
def toMessage (r : MessageResponse) : Message :=
  { conversation_id := r.conversation_id
    message := r.message
    creator := r.creator
    created_at := r.created_at }

/-- The inbound-message request body (`MessageRequest`). -/
structure MessageRequest where
  conversation_id : String
  message : String
  creator : MessageCreatorType
deriving DecidableEq, Repr

/-- The join in `sendMessage`: resolve the conversation row and its
organisation; `executeTakeFirst` yields no row (and the subsequent
destructuring throws) when either is absent. -/
def lookupConvOrg (db : DBState) (cid : String) : Option (Conversation × Organisation) :=
  match db.conversations.find? (fun c => c.id == cid) with
  | none => none
  | some c =>
    match db.organisations.find? (fun o => o.id == c.organisation_id) with
    | none => none
    | some o => some (c, o)

/-- `saveMessageToDatabase` from `sendMessage.ts` (lines 165–207).
`responses` is `undefined` (`none`) in the escalation-gate branch and
an array (possibly empty) in the success branch; the JS truthiness
check `responses ? … : …` is on `undefined`, so an empty array still
takes the array branch, where `Math.max(...[])` is `-Infinity`. -/
def saveMessageToDatabase (requestToSave : Message)
    (responses : Option (List MessageResponse)) (setInterrupted : Bool)
    (db : DBState) : DBState :=
  let responsesToSave : Option (List Message) := responses.map (fun rs => rs.map toMessage)
  let batch : List Message :=
    match responsesToSave with
    | some rs => requestToSave :: rs
    | none => [requestToSave]
  let lastAt : JsNum :=
    match responsesToSave with
    | some rs => jsMathMax (rs.map (fun r => r.created_at))
    | none => some requestToSave.created_at
  { db with
    messages := db.messages ++ batch
    conversations := db.conversations.map (fun c =>
      if c.id = requestToSave.conversation_id then
        if setInterrupted then
          { c with last_message_at := lastAt, status := ConversationStatusType.OPEN,
                   interrupted := true }
        else
          { c with last_message_at := lastAt, status := ConversationStatusType.OPEN }
      else c) }

/-- The declared shape of a `save_contact_details` payload
(`SaveContactDetailsPayload`): optional name/email/phone.  `JSON.parse`
results are modelled at this declared shape. -/
structure SaveContactDetailsPayload where
  name : Option String
  email : Option String
  phone : Option String
deriving DecidableEq, Repr

/-- `JSON.stringify(details)` on a parsed payload: present fields are
echoed in declaration order, absent (`undefined`) fields are omitted. -/
def stringifyPayload (p : SaveContactDetailsPayload) : String :=
  let fields : List String :=
    (match p.name with
     | some v => ["\"name\":\"" ++ v ++ "\""]
     | none => []) ++
    (match p.email with
     | some v => ["\"email\":\"" ++ v ++ "\""]
     | none => []) ++
    (match p.phone with
     | some v => ["\"phone\":\"" ++ v ++ "\""]
     | none => [])
  "\x7b" ++ String.intercalate "," fields ++ "\x7d"

/-- The update in `saveContactDetails`: fields set to `undefined` are
dropped by the query builder, so only present payload fields overwrite
the contact columns. -/
def applyDetails (d : SaveContactDetailsPayload) (c : Contact) : Contact :=
  { c with
    name := match d.name with | some v => some v | none => c.name
    email := match d.email with | some v => some v | none => c.email
    phone := match d.phone with | some v => some v | none => c.phone }

/-- `saveContactDetails` from `sendMessage.ts` (lines 215–234): parse
the JSON payload; on success update the contact row and echo the
parsed payload; on parse failure return the failure string (the JS
code catches the `JSON.parse` exception).  `parse` is the `JSON.parse`
oracle, `none` meaning the parse throws. -/
def saveContactDetails (parse : String → Option SaveContactDetailsPayload)
    (contact_id : String) (data : String) (db : DBState) : String × DBState :=
  match parse data with
  | some details =>
    (stringifyPayload details,
     { db with contacts := db.contacts.map (fun c =>
         if c.id = contact_id then applyDetails details c else c) })
  | none => ("Can\x27t parse details", db)

/-- A tool call in a `requires_action` run
(`tc.id`, `tc.function.name`, `tc.function.arguments`). -/
structure ToolCall where
  id : String
  name : String
  arguments : String
deriving DecidableEq, Repr

/-- One entry of the `tool_outputs` array submitted back to the run. -/
structure ToolOutput where
  tool_call_id : String
  output : String
deriving DecidableEq, Repr

/-- The default output for a tool call (`{ "success": "true" }`),
returned for every tool name other than `save_contact_details`. -/
def genericSuccessOutput : String := "\x7b \"success\": \"true\" \x7d"

/-- The body of the `tool_calls.map` callback in `sendMessage.ts`
(lines 92–105): dispatch on the tool name and pair the output with the
tool call id. -/
def toolOutput1 (parse : String → Option SaveContactDetailsPayload)
    (contact_id : String) (tc : ToolCall) (db : DBState) : ToolOutput × DBState :=
  if tc.name = "save_contact_details" then
    let r := saveContactDetails parse contact_id tc.arguments db
    ({ tool_call_id := tc.id, output := r.1 }, r.2)
  else
    ({ tool_call_id := tc.id, output := genericSuccessOutput }, db)

/-- `tool_calls.map(async tc => …)` followed by `Promise.all`: one
output per tool call, database effects threaded left to right. -/
def computeToolOutputs (parse : String → Option SaveContactDetailsPayload)
    (contact_id : String) (tcs : List ToolCall) (db : DBState) :
    List ToolOutput × DBState :=
  match tcs with
  | [] => ([], db)
  | tc :: rest =>
    let r := toolOutput1 parse contact_id tc db
    let rs := computeToolOutputs parse contact_id rest r.2
    (r.1 :: rs.1, rs.2)

/-- The output the spec dictates for one tool call: the echoed parsed
payload on success, a failure string on parse failure, a generic
success acknowledgement for every other tool name.  Stated from the
words of the spec, for comparison with `computeToolOutputs`. -/
def toolOutputSpec (parse : String → Option SaveContactDetailsPayload)
    (tc : ToolCall) : ToolOutput :=
  { tool_call_id := tc.id
    output :=
      if tc.name = "save_contact_details" then
        match parse tc.arguments with
        | some details => stringifyPayload details
        | none => "Can\x27t parse details"
      else genericSuccessOutput }

/-- Terminal run states distinguished by the orchestrator; everything
other than `completed` and `requiresAction` falls into the error
branch. -/
inductive RunTerminalState where
  | completed
  | requiresAction
  | failed
  | cancelled
  | expired
deriving DecidableEq, Repr

/-- `message.content[0]` of a thread message: a content block with its
`type` tag and text value (annotation markers are handled separately
by the OpenAI handler embedding below). -/
structure ContentBlock where
  ctype : String
  text : String
deriving DecidableEq, Repr

/-- A thread message returned by `messages.list` (most-recent-first).
Only `role`, the first content block and `created_at` (seconds) are
read. -/
structure ThreadMessage where
  role : String
  content0 : ContentBlock
  created_at : Int
deriving DecidableEq, Repr

/-- The assistant-provider oracle for one orchestration: the state the
first poll terminates in, the tool calls presented when that state is
`requires_action`, the state the resubmission poll terminates in, and
the thread message list fetched on completion. -/
structure AssistantEnv where
  firstStatus : RunTerminalState
  toolCalls : List ToolCall
  secondStatus : RunTerminalState
  threadMessages : List ThreadMessage
deriving DecidableEq, Repr

/-- Result of driving the run to its final terminal state
(`createAndPoll` plus at most one `submitToolOutputsAndPoll` round),
recording what was submitted. -/
structure RunPhaseResult where
  finalStatus : RunTerminalState
  submitted : Option (List ToolOutput)
  db : DBState
deriving DecidableEq, Repr

/-- Lines 72–115 of `sendMessage.ts`: poll the run; if it requires
action, compute one output per tool call, submit them all together and
poll again.  A second `requires_action` is not resolved again — it
falls through to the error branch downstream. -/
def runAssistantPhase (env : AssistantEnv)
    (parse : String → Option SaveContactDetailsPayload)
    (contact_id : String) (db : DBState) : RunPhaseResult :=
  if env.firstStatus = RunTerminalState.requiresAction then
    let r := computeToolOutputs parse contact_id env.toolCalls db
    { finalStatus := env.secondStatus, submitted := some r.1, db := r.2 }
  else
    { finalStatus := env.firstStatus, submitted := none, db := db }

/-- `Array.prototype.findIndex`: index of the first match, `-1` when
none matches. -/
def jsFindIndex {α : Type} (p : α → Bool) (l : List α) : Int :=
  match l.findIdx? p with
  | some k => (k : Int)
  | none => -1

/-- `Array.prototype.slice(0, stop)`: a negative `stop` counts from the
end (so `slice(0, -1)` drops the last element); a nonnegative `stop`
is an exclusive upper index. -/
def jsSlice {α : Type} (l : List α) (stop : Int) : List α :=
  if stop < 0 then l.take ((l.length + stop).toNat)
  else l.take stop.toNat

/-- The loop body of lines 119–134 of `sendMessage.ts`: a thread
message contributes an outbound `MessageResponse` when its first
content block is text, with timestamp `created_at * 1000`. -/
def outboundOfThreadMessage (cid : String) (m : ThreadMessage) : Option MessageResponse :=
  if m.content0.ctype = "text" then
    some { conversation_id := cid
           message := m.content0.text
           creator := MessageCreatorType.AGENT
           created_at := m.created_at * 1000 }
  else none

/-- Lines 117–134 of `sendMessage.ts` (same selection as lines 67–85 of
the OpenAI handler): take the prefix of the most-recent-first thread
list up to the first user message (`slice(0, findIndex(role = user))`)
and convert each text message. -/
def collectAssistantMessages (cid : String) (data : List ThreadMessage) :
    List MessageResponse :=
  (jsSlice data (jsFindIndex (fun m => m.role == "user") data)).filterMap
    (outboundOfThreadMessage cid)

/-- The HTTP response of `sendMessage`: the gate branch returns 200
with no body, the success branch 200 with the outbound sequence, every
failure the generic 500 error body. -/
inductive HttpOutcome where
  | okEmpty
  | ok (outbound : List MessageResponse)
  | serverError
deriving DecidableEq, Repr

/-- The HTTP status code of an outcome. -/
def statusOf : HttpOutcome → Nat
  | HttpOutcome.okEmpty => 200
  | HttpOutcome.ok _ => 200
  | HttpOutcome.serverError => 500

/-- What one `sendMessage` invocation did: its HTTP outcome, the
resulting store, and whether the assistant client was called at all
(any of `messages.create` / `runs.createAndPoll` / …). -/
structure SendMessageTrace where
  outcome : HttpOutcome
  db : DBState
  assistantCalled : Bool
deriving DecidableEq, Repr

/-- `sendMessage` from `sendMessage.ts` (lines 17–163), the
`handleInboundMessage` orchestrator of the spec.  `now` is
`Date.now()` at the construction of the inbound message.  A missing
conversation/organisation row makes the destructuring of
`undefined` from `executeTakeFirst()` throw, which the catch-all turns
into the generic 500. -/
def sendMessage (env : AssistantEnv)
    (parse : String → Option SaveContactDetailsPayload)
    (now : Int) (req : MessageRequest) (db : DBState) : SendMessageTrace :=
  match lookupConvOrg db req.conversation_id with
  | none =>
    { outcome := HttpOutcome.serverError, db := db, assistantCalled := false }
  | some (conv, _org) =>
    let inbound : Message :=
      { conversation_id := req.conversation_id
        message := req.message
        creator := req.creator
        created_at := now }
    if conv.interrupted = true ∨ req.creator = MessageCreatorType.USER then
      { outcome := HttpOutcome.okEmpty
        db := saveMessageToDatabase inbound none true db
        assistantCalled := false }
    else
      let phase := runAssistantPhase env parse conv.contact_id db
      if phase.finalStatus = RunTerminalState.completed then
        let outbound := collectAssistantMessages req.conversation_id env.threadMessages
        { outcome := HttpOutcome.ok outbound
          db := saveMessageToDatabase inbound (some outbound) false phase.db
          assistantCalled := true }
      else
        { outcome := HttpOutcome.serverError, db := phase.db, assistantCalled := true }

/-! ## Citation/annotation stripping (`processOpenAIMessage`, OpenAI handler lines 94–119)

Message texts are modelled as lists of characters; an annotation is
represented by its marker text (`annotation.text`), the only field the
stripper reads (the `file_citation` check only logs). -/

/-- `String.prototype.replace(pat, "")` with a string pattern: remove
the first occurrence of `pat`, leave the string unchanged when `pat`
does not occur (an empty `pat` matches at position 0, so removal of it
is a no-op). -/
def replaceFirstChars (s pat : List Char) : List Char :=
  if pat.isPrefixOf s then s.drop pat.length
  else
    match s with
    | [] => []
    | c :: rest => c :: replaceFirstChars rest pat

/-- Whether `pat` occurs as a contiguous substring of `s` (the empty
pattern always occurs). -/
def containsSub (s pat : List Char) : Bool :=
  if pat.isPrefixOf s then true
  else
    match s with
    | [] => false
    | _ :: rest => containsSub rest pat

/-- The annotation loop of `processOpenAIMessage` (lines 101–111):
`messageTextContent = messageTextContent.replace(annotation.text, "")`
for each annotation in order.  (The `length > 0` guard is the identity
fold on the empty list.) -/
def stripAnnotationMarks (anns : List (List Char)) (text : List Char) : List Char :=
  anns.foldl (fun acc a => replaceFirstChars acc a) text

/-! ## Slack bot event path (`part_002`) -/

/-- The `Message.SlackBot` event payload. -/
structure SlackBotMessageEvent where
  organisation_id : String
  message : String
  user_id : String
  channel_id : String
  thread_ts : String
deriving DecidableEq, Repr

/-- The Slack user record resolved by `getUserFromSlack`: the fields
the processor reads. -/
structure SlackUser where
  id : String
  real_name : String
  email : Option String
  phone : Option String
  is_admin : Bool
deriving DecidableEq, Repr

/-- JS truthiness of a `string | undefined` value: `undefined` and the
empty string are falsy. -/
def jsTruthyStr : Option String → Bool
  | none => false
  | some s => s != ""

/-- `checkGetContactID` from `part_002` (lines 293–323): reuse the
contact matching the Slack id when it exists (and its id is truthy),
otherwise insert a new contact under the fresh id. -/
def checkGetContactID (freshId : String) (su : SlackUser)
    (organisation_id : String) (db : DBState) : String × DBState :=
  let newContact : Contact :=
    { id := freshId
      organisation_id := organisation_id
      name := some su.real_name
      email := su.email
      phone := su.phone
      slack_id := some su.id }
  match db.contacts.find? (fun c => c.slack_id == some su.id) with
  | some c =>
    if c.id ≠ "" then (c.id, db)
    else (freshId, { db with contacts := db.contacts ++ [newContact] })
  | none => (freshId, { db with contacts := db.contacts ++ [newContact] })

/-- `checkGetConversation` from `part_002` (lines 325–368): reuse the
conversation matching the thread id, marking it interrupted when the
message is from an admin; create a new conversation only for
non-admins; admin messages on unknown threads get no conversation id. -/
def checkGetConversation (freshId thread_ts organisation_id : String)
    (messageIsFromAdmin : Bool) (contact_id : String) (now : Int)
    (db : DBState) : Option String × DBState :=
  let newConversation : Conversation :=
    { id := freshId
      organisation_id := organisation_id
      contact_id := contact_id
      created_at := now
      last_message_at := some now
      interrupted := false
      status := ConversationStatusType.OPEN
      sentiment := 0
      channel := ConversationChannelType.SLACK
      channel_id := thread_ts }
  match db.conversations.find? (fun c => c.channel_id == thread_ts) with
  | some conv =>
    if conv.id ≠ "" then
      (some conv.id,
       if messageIsFromAdmin then
         { db with conversations := db.conversations.map (fun c =>
             if c.id = conv.id then { c with interrupted := true } else c) }
       else db)
    else if !messageIsFromAdmin then
      (some freshId, { db with conversations := db.conversations ++ [newConversation] })
    else (none, db)
  | none =>
    if !messageIsFromAdmin then
      (some freshId, { db with conversations := db.conversations ++ [newConversation] })
    else (none, db)

/-- Modelled from the spec: `saveMessageResponsesToDatabase` (imported
from the DatabaseController) is not under `src/`.  Per §4.1/§4.3 it
persists the outbound messages (batch insert into `messages`); its
boolean second argument is passed `false` at both call sites and is
not modelled. -/
def saveMessageResponsesToDatabase (rs : List MessageResponse) (db : DBState) : DBState :=
  { db with messages := db.messages ++ rs.map toMessage }

/-- The mutation loop of `part_002` lines 127–130: the `index`-th
response gets `conversation_id := cid` and
`created_at := inbound.created_at + index + 1`. -/
def assignSeqTimestamps (cid : String) (t0 : Int) : Nat → List MessageResponse → List MessageResponse
  | _, [] => []
  | i, mr :: rest =>
    { mr with conversation_id := cid, created_at := t0 + (i : Int) + 1 }
      :: assignSeqTimestamps cid t0 (i + 1) rest

/-- Modelled from the spec: `handleSingleMessageForOpenAI` (the OpenAI
handler variant the Slack processor calls) is not under `src/`; per
§4.2 it drives one assistant run and returns the ordered outbound
responses.  It is modelled as an oracle value. -/
structure SlackEnv where
  assistantReply : List MessageResponse
deriving DecidableEq, Repr

/-- What one `processSlackBotMessage` invocation did. -/
structure SlackBotTrace where
  assistantInvoked : Bool
  postedReply : Bool
  postedApology : Bool
  outbound : List MessageResponse
  db : DBState
deriving DecidableEq, Repr

/-- `processSlackBotMessage` from `part_002` (lines 49–145).  The
destructuring of the organisation lookup throws when the row is missing,
landing in the catch that posts the apology.  The assistant is invoked
(and the assembled reply posted) exactly in the non-admin branch; the
inbound message is saved only when the conversation id is truthy, and
the responses — re-timestamped by `assignSeqTimestamps` — only when
the assistant ran.  (The reply text assembly of lines 89–100 is not
read by any property proved here and is not modelled.) -/
def processSlackBotMessage (env : SlackEnv) (now : Int)
    (freshContactId freshConvId : String) (data : SlackBotMessageEvent)
    (slackUser : SlackUser) (db : DBState) : SlackBotTrace :=
  match db.organisations.find? (fun o => o.id == data.organisation_id) with
  | none =>
    { assistantInvoked := false, postedReply := false, postedApology := true
      outbound := [], db := db }
  | some _org =>
    let rc := checkGetContactID freshContactId slackUser data.organisation_id db
    let rv := checkGetConversation freshConvId data.thread_ts data.organisation_id
      slackUser.is_admin rc.1 now rc.2
    let messageResponse : Option (List MessageResponse) :=
      if !slackUser.is_admin then some env.assistantReply else none
    let invoked := !slackUser.is_admin
    if jsTruthyStr rv.1 then
      let cid := rv.1.getD ""
      let inbound : Message :=
        { conversation_id := cid
          message := data.message
          creator := if slackUser.is_admin then MessageCreatorType.USER
                     else MessageCreatorType.CONTACT
          created_at := now }
      let db3 := { rv.2 with messages := rv.2.messages ++ [inbound] }
      match messageResponse with
      | some mrs =>
        let out := assignSeqTimestamps cid now 0 mrs
        { assistantInvoked := invoked, postedReply := invoked, postedApology := false
          outbound := out, db := saveMessageResponsesToDatabase out db3 }
      | none =>
        { assistantInvoked := invoked, postedReply := invoked, postedApology := false
          outbound := [], db := db3 }
    else
      { assistantInvoked := invoked, postedReply := invoked, postedApology := false
        outbound := messageResponse.getD [], db := rv.2 }

/-! ## Concrete fixtures used to instantiate the theorems -/

/-- A `JSON.parse` oracle on which every payload fails to parse. -/
def parseNone : String → Option SaveContactDetailsPayload := fun _ => none

/-- A `JSON.parse` oracle that parses exactly the string `"payload"`,
to a name-only payload. -/
def parseBob : String → Option SaveContactDetailsPayload := fun s =>
  if s = "payload" then some { name := some "Bob", email := none, phone := none }
  else none

def orgW : Organisation := { id := "org_1", assistant_id := "asst_1" }

def contactOld : Contact :=
  { id := "cont_1", organisation_id := "org_1", name := some "Old"
    email := none, phone := none, slack_id := none }

def convBase : Conversation :=
  { id := "conv_1", organisation_id := "org_1", contact_id := "cont_1"
    created_at := 1, last_message_at := some 5, interrupted := false
    status := ConversationStatusType.OPEN, sentiment := 0
    channel := ConversationChannelType.WEB, channel_id := "chan_1" }

def convInterrupted : Conversation :=
  { convBase with interrupted := true, status := ConversationStatusType.CLOSED }

def dbW1 : DBState :=
  { organisations := [orgW], contacts := [contactOld]
    conversations := [convBase], messages := [] }

def dbC6 : DBState := { dbW1 with conversations := [convInterrupted] }

def reqUser : MessageRequest :=
  { conversation_id := "conv_1", message := "hello", creator := MessageCreatorType.USER }

def reqContact : MessageRequest :=
  { conversation_id := "conv_1", message := "hi", creator := MessageCreatorType.CONTACT }

def reqMissing : MessageRequest :=
  { conversation_id := "conv_404", message := "hi", creator := MessageCreatorType.CONTACT }

def envIdle : AssistantEnv :=
  { firstStatus := RunTerminalState.completed, toolCalls := []
    secondStatus := RunTerminalState.completed, threadMessages := [] }

def tmUser : ThreadMessage :=
  { role := "user", content0 := { ctype := "text", text := "hi" }, created_at := 0 }

def tmA1 : ThreadMessage :=
  { role := "assistant", content0 := { ctype := "text", text := "a1" }, created_at := 1000 }

def tmA2 : ThreadMessage :=
  { role := "assistant", content0 := { ctype := "text", text := "a2" }, created_at := 2000 }

/-- A completed run whose thread holds two assistant messages (most
recent first) above the user turn. -/
def envC2 : AssistantEnv := { envIdle with threadMessages := [tmA2, tmA1, tmUser] }

/-- The outbound sequence `sendMessage` produces from `envC2`. -/
def outC2 : List MessageResponse :=
  [{ conversation_id := "conv_1", message := "a2"
     creator := MessageCreatorType.AGENT, created_at := 2000000 },
   { conversation_id := "conv_1", message := "a1"
     creator := MessageCreatorType.AGENT, created_at := 1000000 }]

/-- A run that requires one `save_contact_details` action and then
fails after the resubmission. -/
def envC3 : AssistantEnv :=
  { firstStatus := RunTerminalState.requiresAction
    toolCalls := [{ id := "tc_1", name := "save_contact_details", arguments := "payload" }]
    secondStatus := RunTerminalState.failed, threadMessages := [] }

/-- A run that terminates in `failed` on the first poll. -/
def envFail : AssistantEnv := { envIdle with firstStatus := RunTerminalState.failed }

/-- A completed run where the most recent thread message has the user role:
the selected window is empty, so zero outbound messages. -/
def envC4 : AssistantEnv := { envIdle with threadMessages := [tmUser] }

def tmNew : ThreadMessage :=
  { role := "assistant", content0 := { ctype := "text", text := "new" }, created_at := 2 }

def tmOld : ThreadMessage :=
  { role := "assistant", content0 := { ctype := "text", text := "old" }, created_at := 1 }

def slackUserNonAdmin : SlackUser :=
  { id := "U1", real_name := "Ann", email := none, phone := none, is_admin := false }

def slackEventW : SlackBotMessageEvent :=
  { organisation_id := "org_1", message := "question", user_id := "U1"
    channel_id := "C1", thread_ts := "ts_1" }

def contactSlack : Contact :=
  { id := "cont_9", organisation_id := "org_1", name := some "Ann"
    email := none, phone := none, slack_id := some "U1" }

/-- A Slack-bound conversation that a human operator has taken over. -/
def convSlack : Conversation :=
  { convBase with
    id := "conv_9"
    contact_id := "cont_9"
    channel := ConversationChannelType.SLACK
    channel_id := "ts_1"
    interrupted := true }

def dbSlack : DBState :=
  { organisations := [orgW], contacts := [contactSlack]
    conversations := [convSlack], messages := [] }

def mrW1 : MessageResponse :=
  { conversation_id := "", message := "Hello", creator := MessageCreatorType.AGENT, created_at := 0 }

def mrW2 : MessageResponse :=
  { conversation_id := "", message := "More", creator := MessageCreatorType.AGENT, created_at := 0 }

def envSlack : SlackEnv := { assistantReply := [mrW1, mrW2] }

/-! ## Helper lemmas -/

theorem toolOutput1_fst (parse : String → Option SaveContactDetailsPayload)
    (contact_id : String) (tc : ToolCall) (db : DBState) :
    (toolOutput1 parse contact_id tc db).1 = toolOutputSpec parse tc := by
  by_cases h : tc.name = "save_contact_details"
  · cases hp : parse tc.arguments <;>
      simp [toolOutput1, toolOutputSpec, saveContactDetails, h, hp]
  · simp [toolOutput1, toolOutputSpec, h]

theorem toolOutput1_frame (parse : String → Option SaveContactDetailsPayload)
    (contact_id : String) (tc : ToolCall) (db : DBState) :
    (toolOutput1 parse contact_id tc db).2.messages = db.messages ∧
    (toolOutput1 parse contact_id tc db).2.conversations = db.conversations ∧
    (toolOutput1 parse contact_id tc db).2.organisations = db.organisations := by
  by_cases h : tc.name = "save_contact_details"
  · cases hp : parse tc.arguments <;>
      simp [toolOutput1, saveContactDetails, h, hp]
  · simp [toolOutput1, h]

theorem computeToolOutputs_fst (parse : String → Option SaveContactDetailsPayload)
    (contact_id : String) (tcs : List ToolCall) (db : DBState) :
    (computeToolOutputs parse contact_id tcs db).1 = tcs.map (toolOutputSpec parse) := by
  induction tcs generalizing db with
  | nil => rfl
  | cons tc rest ih =>
    simp only [computeToolOutputs, List.map_cons]
    exact congrArg₂ List.cons (toolOutput1_fst parse contact_id tc db) (ih _)

theorem computeToolOutputs_frame (parse : String → Option SaveContactDetailsPayload)
    (contact_id : String) (tcs : List ToolCall) (db : DBState) :
    (computeToolOutputs parse contact_id tcs db).2.messages = db.messages ∧
    (computeToolOutputs parse contact_id tcs db).2.conversations = db.conversations ∧
    (computeToolOutputs parse contact_id tcs db).2.organisations = db.organisations := by
  induction tcs generalizing db with
  | nil => exact ⟨rfl, rfl, rfl⟩
  | cons tc rest ih =>
    have h1 := toolOutput1_frame parse contact_id tc db
    have h2 := ih (toolOutput1 parse contact_id tc db).2
    simp only [computeToolOutputs]
    exact ⟨h2.1.trans h1.1, h2.2.1.trans h1.2.1, h2.2.2.trans h1.2.2⟩

theorem replaceFirstChars_of_not_contains :
    ∀ s pat : List Char, containsSub s pat = false → replaceFirstChars s pat = s := by
  intro s
  induction s with
  | nil =>
    intro pat h
    unfold containsSub at h
    unfold replaceFirstChars
    cases hp : pat.isPrefixOf ([] : List Char) with
    | true => simp [hp] at h
    | false => simp [hp]
  | cons c rest ih =>
    intro pat h
    unfold containsSub at h
    unfold replaceFirstChars
    cases hp : pat.isPrefixOf (c :: rest) with
    | true => simp [hp] at h
    | false =>
      simp only [hp, Bool.false_eq_true, if_false] at h
      simp [hp, ih pat h]

theorem stripAnnotationMarks_of_not_contains :
    ∀ (anns : List (List Char)) (s : List Char),
      (∀ a ∈ anns, containsSub s a = false) → stripAnnotationMarks anns s = s := by
  intro anns
  induction anns with
  | nil => intro s _; rfl
  | cons a rest ih =>
    intro s h
    unfold stripAnnotationMarks
    simp only [List.foldl_cons]
    rw [replaceFirstChars_of_not_contains s a (h a (List.mem_cons_self a rest))]
    exact ih s (fun b hb => h b (List.mem_cons_of_mem a hb))

theorem assignSeqTimestamps_length (cid : String) (t0 : Int) :
    ∀ (i : Nat) (l : List MessageResponse),
      (assignSeqTimestamps cid t0 i l).length = l.length := by
  intro i l
  induction l generalizing i with
  | nil => rfl
  | cons mr rest ih => simp [assignSeqTimestamps, ih]

theorem assignSeqTimestamps_get (cid : String) (t0 : Int) :
    ∀ (l : List MessageResponse) (i j : Nat)
      (h : j < (assignSeqTimestamps cid t0 i l).length),
      ((assignSeqTimestamps cid t0 i l).get ⟨j, h⟩).created_at
        = t0 + (i : Int) + (j : Int) + 1 := by
  intro l
  induction l with
  | nil => intro i j h; simp [assignSeqTimestamps] at h
  | cons mr rest ih =>
    intro i j h
    cases j with
    | zero => simp [assignSeqTimestamps]
    | succ j2 =>
      have h2 : j2 < (assignSeqTimestamps cid t0 (i + 1) rest).length := by
        simpa [assignSeqTimestamps] using h
      have := ih (i + 1) j2 h2
      simp only [assignSeqTimestamps, List.get_cons_succ]
      rw [this]
      push_cast
      ring

theorem checkGetConversation_nonAdmin_truthy (freshId thread_ts organisation_id
    contact_id : String) (now : Int) (db : DBState) (hf : freshId ≠ "") :
    jsTruthyStr (checkGetConversation freshId thread_ts organisation_id false
      contact_id now db).1 = true := by
  unfold checkGetConversation
  cases hfind : db.conversations.find? (fun c => c.channel_id == thread_ts) with
  | none => simp [jsTruthyStr, hf]
  | some conv =>
    by_cases hid : conv.id ≠ ""
    · simp [hid, jsTruthyStr]
    · push_neg at hid
      simp [hid, jsTruthyStr, hf]

/-! ## Claim theorems -/

/-- C5: for every tool call present in a `requires_action` run state,
exactly one tool output is submitted in the resubmission — the
submitted list is the tool-call list mapped through the per-call
output rule: `save_contact_details` echoes the parsed payload on
success and returns the failure string (not a thrown error) when its
JSON payload fails to parse, and every other tool name receives the
generic success acknowledgement.  No outputs are submitted when the
first poll did not require action. -/
theorem tool_call_roundtrip_outputs (env : AssistantEnv)
    (parse : String → Option SaveContactDetailsPayload)
    (contact_id : String) (db : DBState) :
    (runAssistantPhase env parse contact_id db).submitted =
      (if env.firstStatus = RunTerminalState.requiresAction
       then some (env.toolCalls.map (toolOutputSpec parse))
       else none) := by
  unfold runAssistantPhase
  by_cases h : env.firstStatus = RunTerminalState.requiresAction
  · simp [h, computeToolOutputs_fst]
  · simp [h]

/-- C8 counterexample: stripping is not idempotent as claimed for
every text and annotation list — with annotation marker `"x"` and text
`"xx"`, the first application leaves `"x"` and the second removes it,
so the second application is not a no-op. -/
theorem strip_counterexample :
    stripAnnotationMarks [['x']] (stripAnnotationMarks [['x']] ['x', 'x']) ≠
      stripAnnotationMarks [['x']] ['x', 'x'] := by
  decide

/-- C8 amended: citation annotation stripping is idempotent whenever
no annotation marker still occurs in the once-stripped text (the
stripper removes only the first occurrence of each marker, so a
marker occurring twice survives one pass and is removed by the
next). -/
theorem strip_idempotent_when_no_marker_remains
    (anns : List (List Char)) (text : List Char)
    (h : ∀ a ∈ anns, containsSub (stripAnnotationMarks anns text) a = false) :
    stripAnnotationMarks anns (stripAnnotationMarks anns text) =
      stripAnnotationMarks anns text :=
  stripAnnotationMarks_of_not_contains anns (stripAnnotationMarks anns text) h

/-- C8 witness: the amended theorem applies to marker `"x"` and text
`"xy"`: the stripped text `"y"` contains no marker, and re-stripping
is a no-op. -/
theorem strip_idempotent_witness :
    stripAnnotationMarks [['x']] (stripAnnotationMarks [['x']] ['x', 'y']) =
      stripAnnotationMarks [['x']] ['x', 'y'] :=
  strip_idempotent_when_no_marker_remains [['x']] ['x', 'y'] (by decide)

/-- C9 counterexample: with a most-recent-first thread of two
assistant messages and no user message, the selection returns the
most recent message (`"new"`) and drops the oldest (`"old"`) — the
claimed "the most recent assistant message is excluded" is false at
this input. -/
theorem no_user_selection_counterexample :
    jsFindIndex (fun m => m.role == "user") [tmNew, tmOld] = -1 ∧
    (collectAssistantMessages "conv_1" [tmNew, tmOld]).map (fun r => r.message)
      = ["new"] := by
  decide

/-- C9 amended: when the fetched most-recent-first thread list has no
user-authored message, `findIndex` returns `-1` and `slice(0, -1)`
drops the LAST element of the list — the oldest fetched message is
excluded (the most recent assistant message is included whenever the
list has at least two elements), instead of all messages being
returned. -/
theorem no_user_selection_drops_oldest (cid : String) (data : List ThreadMessage)
    (h : ∀ m ∈ data, (m.role == "user") = false) :
    jsFindIndex (fun m => m.role == "user") data = -1 ∧
    collectAssistantMessages cid data =
      data.dropLast.filterMap (outboundOfThreadMessage cid) := by
  have hf : data.findIdx? (fun m => m.role == "user") = none :=
    List.findIdx?_eq_none_iff.mpr h
  constructor
  · unfold jsFindIndex
    rw [hf]
  · unfold collectAssistantMessages jsFindIndex jsSlice
    rw [hf]
    have hneg : (-1 : Int) < 0 := by decide
    have harg : ((data.length : Int) + -1).toNat = data.length - 1 := by omega
    rw [if_pos hneg, harg, List.dropLast_eq_take]

/-- C9 witness: the amended theorem at the concrete two-assistant
thread. -/
theorem no_user_selection_witness :
    jsFindIndex (fun m => m.role == "user") [tmNew, tmOld] = -1 ∧
    collectAssistantMessages "conv_1" [tmNew, tmOld] =
      ([tmNew, tmOld].dropLast).filterMap (outboundOfThreadMessage "conv_1") :=
  no_user_selection_drops_oldest "conv_1" [tmNew, tmOld] (by decide)

/-- C1: for every inbound message on an existing conversation, if the
interrupted flag of the conversation is true or the creator is USER, the
orchestrator performs no assistant-client call, persists only the
inbound message (no outbound messages, contacts untouched), sets
interrupted=true and status=OPEN on the conversation when the creator
is USER, and returns the empty outbound sequence (the bodyless 200). -/
theorem escalation_gate (env : AssistantEnv)
    (parse : String → Option SaveContactDetailsPayload) (now : Int)
    (req : MessageRequest) (db : DBState) (conv : Conversation) (org : Organisation)
    (hlk : lookupConvOrg db req.conversation_id = some (conv, org))
    (hgate : conv.interrupted = true ∨ req.creator = MessageCreatorType.USER) :
    (sendMessage env parse now req db).assistantCalled = false ∧
    (sendMessage env parse now req db).outcome = HttpOutcome.okEmpty ∧
    (sendMessage env parse now req db).db.messages =
      db.messages ++
        [{ conversation_id := req.conversation_id, message := req.message
           creator := req.creator, created_at := now }] ∧
    (sendMessage env parse now req db).db.contacts = db.contacts ∧
    (req.creator = MessageCreatorType.USER →
      ∀ c ∈ (sendMessage env parse now req db).db.conversations,
        c.id = req.conversation_id →
          c.interrupted = true ∧ c.status = ConversationStatusType.OPEN) := by
  have hsm : sendMessage env parse now req db =
      { outcome := HttpOutcome.okEmpty
        db := saveMessageToDatabase
          { conversation_id := req.conversation_id, message := req.message
            creator := req.creator, created_at := now } none true db
        assistantCalled := false } := by
    unfold sendMessage
    simp only [hlk]
    rw [if_pos hgate]
  rw [hsm]
  refine ⟨rfl, rfl, rfl, rfl, ?_⟩
  intro _hU c hc hcid
  simp only [saveMessageToDatabase, Option.map_none'] at hc
  rcases List.mem_map.mp hc with ⟨c0, _hmem, rfl⟩
  by_cases h0 : c0.id = req.conversation_id
  · rw [if_pos h0]
    exact ⟨rfl, rfl⟩
  · rw [if_neg h0] at hcid
    exact absurd hcid h0

/-- C1 witness: the gate theorem at a concrete USER-authored inbound
message on a non-interrupted conversation. -/
theorem escalation_gate_witness :
    (sendMessage envIdle parseNone 10 reqUser dbW1).assistantCalled = false ∧
    (sendMessage envIdle parseNone 10 reqUser dbW1).outcome = HttpOutcome.okEmpty ∧
    (sendMessage envIdle parseNone 10 reqUser dbW1).db.contacts = dbW1.contacts := by
  have h := escalation_gate envIdle parseNone 10 reqUser dbW1 convBase orgW
    (by decide) (Or.inr rfl)
  exact ⟨h.1, h.2.1, h.2.2.2.1⟩

/-- C6 counterexample: on an interrupted conversation whose status is
CLOSED, processing a CONTACT-authored inbound message changes the
conversation record — its status becomes OPEN — so "all other fields
of the conversation record are left unchanged" is false. -/
theorem interrupted_frame_counterexample :
    (sendMessage envIdle parseNone 10 reqContact dbC6).outcome = HttpOutcome.okEmpty ∧
    (sendMessage envIdle parseNone 10 reqContact dbC6).db.conversations.map
      (fun c => c.status) = [ConversationStatusType.OPEN] ∧
    dbC6.conversations.map (fun c => c.status) = [ConversationStatusType.CLOSED] := by
  decide

/-- C6 amended: for every inbound message on a conversation with
interrupted=true, the outbound sequence is empty, the inbound message
is the only message persisted and the assistant is not called, but the
conversation record is updated rather than left unchanged: its status
is set to OPEN and its last_message_at to the inbound timestamp
(interrupted stays true); contacts, organisations and the other
conversations are unchanged. -/
theorem interrupted_updates_conversation (env : AssistantEnv)
    (parse : String → Option SaveContactDetailsPayload) (now : Int)
    (req : MessageRequest) (db : DBState) (conv : Conversation) (org : Organisation)
    (hlk : lookupConvOrg db req.conversation_id = some (conv, org))
    (hint : conv.interrupted = true) :
    (sendMessage env parse now req db).outcome = HttpOutcome.okEmpty ∧
    (sendMessage env parse now req db).assistantCalled = false ∧
    (sendMessage env parse now req db).db.messages =
      db.messages ++
        [{ conversation_id := req.conversation_id, message := req.message
           creator := req.creator, created_at := now }] ∧
    (sendMessage env parse now req db).db.contacts = db.contacts ∧
    (sendMessage env parse now req db).db.organisations = db.organisations ∧
    (sendMessage env parse now req db).db.conversations =
      db.conversations.map (fun c =>
        if c.id = req.conversation_id then
          { c with last_message_at := some now
                   status := ConversationStatusType.OPEN
                   interrupted := true }
        else c) := by
  have hsm : sendMessage env parse now req db =
      { outcome := HttpOutcome.okEmpty
        db := saveMessageToDatabase
          { conversation_id := req.conversation_id, message := req.message
            creator := req.creator, created_at := now } none true db
        assistantCalled := false } := by
    unfold sendMessage
    simp only [hlk]
    rw [if_pos (Or.inl hint)]
  rw [hsm]
  exact ⟨rfl, rfl, rfl, rfl, rfl, rfl⟩

/-- C6 witness: the amended theorem at the concrete interrupted CLOSED
conversation. -/
theorem interrupted_updates_conversation_witness :
    (sendMessage envIdle parseNone 10 reqContact dbC6).outcome = HttpOutcome.okEmpty ∧
    (sendMessage envIdle parseNone 10 reqContact dbC6).db.conversations =
      dbC6.conversations.map (fun c =>
        if c.id = reqContact.conversation_id then
          { c with last_message_at := some 10
                   status := ConversationStatusType.OPEN
                   interrupted := true }
        else c) := by
  have h := interrupted_updates_conversation envIdle parseNone 10 reqContact dbC6
    convInterrupted orgW (by decide) rfl
  exact ⟨h.1, h.2.2.2.2.2⟩

/-- C7 counterexample: with the referenced conversation absent, the
endpoint answers 500 (the catch-all generic error), not a 4xx
NotFound. -/
theorem missing_conversation_counterexample :
    statusOf (sendMessage envIdle parseNone 0 reqMissing dbW1).outcome = 500 ∧
    ¬ (400 ≤ statusOf (sendMessage envIdle parseNone 0 reqMissing dbW1).outcome ∧
       statusOf (sendMessage envIdle parseNone 0 reqMissing dbW1).outcome < 500) := by
  decide

/-- C7 amended: if the referenced conversation (or its organisation)
does not exist, the destructuring of the absent row throws and the
catch-all handler returns the generic 500 error outcome — not a 4xx —
leaving the store unchanged. -/
theorem missing_conversation_yields_500 (env : AssistantEnv)
    (parse : String → Option SaveContactDetailsPayload) (now : Int)
    (req : MessageRequest) (db : DBState)
    (h : lookupConvOrg db req.conversation_id = none) :
    (sendMessage env parse now req db).outcome = HttpOutcome.serverError ∧
    statusOf (sendMessage env parse now req db).outcome = 500 ∧
    (sendMessage env parse now req db).db = db := by
  unfold sendMessage
  simp [h, statusOf]

/-- C7 witness: the amended theorem at a request referencing the
absent conversation `conv_404`. -/
theorem missing_conversation_witness :
    (sendMessage envIdle parseNone 0 reqMissing dbW1).outcome = HttpOutcome.serverError ∧
    statusOf (sendMessage envIdle parseNone 0 reqMissing dbW1).outcome = 500 := by
  have h := missing_conversation_yields_500 envIdle parseNone 0 reqMissing dbW1 (by decide)
  exact ⟨h.1, h.2.1⟩

/-- C3 counterexample: the claimed "the persisted state is unchanged
on this error" is false — a `requires_action` round executes
`save_contact_details` (updating the contact row) before the
resubmitted run fails, so the store differs even though the outcome is
the 500 `AssistantFailure`. -/
theorem assistant_failure_counterexample :
    (sendMessage envC3 parseBob 10 reqContact dbW1).outcome = HttpOutcome.serverError ∧
    (sendMessage envC3 parseBob 10 reqContact dbW1).db.contacts.map (fun c => c.name)
      = [some "Bob"] ∧
    dbW1.contacts.map (fun c => c.name) = [some "Old"] := by
  decide

/-- C3 amended: if the run ends in a terminal state other than
completed (including a `requires_action` round not resolved to
completed), the orchestrator produces the `AssistantFailure` 500 and
persists neither the inbound message nor any outbound message — the
messages and conversations tables are unchanged; however contact
updates performed by tool calls during a `requires_action` round may
persist. -/
theorem assistant_failure_no_message_persistence (env : AssistantEnv)
    (parse : String → Option SaveContactDetailsPayload) (now : Int)
    (req : MessageRequest) (db : DBState) (conv : Conversation) (org : Organisation)
    (hlk : lookupConvOrg db req.conversation_id = some (conv, org))
    (hint : conv.interrupted = false)
    (hcr : req.creator ≠ MessageCreatorType.USER)
    (hfail : (env.firstStatus = RunTerminalState.requiresAction ∧
              env.secondStatus ≠ RunTerminalState.completed) ∨
             (env.firstStatus ≠ RunTerminalState.requiresAction ∧
              env.firstStatus ≠ RunTerminalState.completed)) :
    (sendMessage env parse now req db).outcome = HttpOutcome.serverError ∧
    (sendMessage env parse now req db).db.messages = db.messages ∧
    (sendMessage env parse now req db).db.conversations = db.conversations := by
  have hgate : ¬ (conv.interrupted = true ∨ req.creator = MessageCreatorType.USER) := by
    rintro (h1 | h2)
    · rw [hint] at h1
      exact Bool.false_ne_true h1
    · exact hcr h2
  unfold sendMessage
  simp only [hlk]
  rw [if_neg hgate]
  rcases hfail with ⟨hreq, hsec⟩ | ⟨hnreq, hncomp⟩
  · have hframe := computeToolOutputs_frame parse conv.contact_id env.toolCalls db
    simp [runAssistantPhase, hreq, hsec]
    exact ⟨hframe.1, hframe.2.1⟩
  · simp [runAssistantPhase, hnreq, hncomp]

/-- C3 witness: the amended theorem at a run that fails on the first
poll. -/
theorem assistant_failure_witness :
    (sendMessage envFail parseNone 10 reqContact dbW1).outcome = HttpOutcome.serverError ∧
    (sendMessage envFail parseNone 10 reqContact dbW1).db.messages = dbW1.messages ∧
    (sendMessage envFail parseNone 10 reqContact dbW1).db.conversations
      = dbW1.conversations := by
  have h := assistant_failure_no_message_persistence envFail parseNone 10 reqContact dbW1
    convBase orgW (by decide) rfl (by decide) (Or.inr ⟨by decide, by decide⟩)
  exact h

/-- C2 counterexample: a successful HTTP (`sendMessage`) orchestration
keeps the provider timestamps (`created_at * 1000`, most recent
first): with inbound timestamp 5 the outbound timestamps are
`[2000000, 1000000]` — not `[inbound+1, inbound+2]`, and not
increasing. -/
theorem outbound_timestamps_counterexample :
    (sendMessage envC2 parseNone 5 reqContact dbW1).outcome = HttpOutcome.ok outC2 ∧
    outC2.map (fun r => r.created_at) = [2000000, 1000000] ∧
    ¬ outC2.map (fun r => r.created_at) = [5 + 1, 5 + 2] := by
  decide

/-- C2 amended: the `inbound.created_at + 1 + i` rule holds on the
Slack bot path: for every successful non-admin orchestration there,
the timestamp of the i-th outbound message is `now + 1 + i`, so outbound
timestamps are strictly increasing and each strictly greater than the
inbound timestamp.  (The HTTP `sendMessage` path instead
keeps provider timestamps, most recent first.) -/
theorem slack_outbound_timestamps (env : SlackEnv) (now : Int)
    (freshContactId freshConvId : String) (data : SlackBotMessageEvent)
    (slackUser : SlackUser) (db : DBState) (org : Organisation)
    (horg : db.organisations.find? (fun o => o.id == data.organisation_id) = some org)
    (hadmin : slackUser.is_admin = false)
    (hfresh : freshConvId ≠ "") :
    ∀ (j : Nat) (h : j < (processSlackBotMessage env now freshContactId freshConvId
        data slackUser db).outbound.length),
      ((processSlackBotMessage env now freshContactId freshConvId data slackUser
          db).outbound.get ⟨j, h⟩).created_at = now + 1 + (j : Int) ∧
      now < ((processSlackBotMessage env now freshContactId freshConvId data slackUser
          db).outbound.get ⟨j, h⟩).created_at ∧
      ∀ (k : Nat) (hk : k < (processSlackBotMessage env now freshContactId freshConvId
          data slackUser db).outbound.length), j < k →
        ((processSlackBotMessage env now freshContactId freshConvId data slackUser
            db).outbound.get ⟨j, h⟩).created_at <
          ((processSlackBotMessage env now freshContactId freshConvId data slackUser
              db).outbound.get ⟨k, hk⟩).created_at := by
  have hout : ∃ c, (processSlackBotMessage env now freshContactId freshConvId data
      slackUser db).outbound = assignSeqTimestamps c now 0 env.assistantReply := by
    refine ⟨((checkGetConversation freshConvId data.thread_ts data.organisation_id false
      (checkGetContactID freshContactId slackUser data.organisation_id db).1 now
      (checkGetContactID freshContactId slackUser data.organisation_id db).2).1.getD ""), ?_⟩
    unfold processSlackBotMessage
    simp only [horg]
    have htr := checkGetConversation_nonAdmin_truthy freshConvId data.thread_ts
      data.organisation_id
      (checkGetContactID freshContactId slackUser data.organisation_id db).1 now
      (checkGetContactID freshContactId slackUser data.organisation_id db).2 hfresh
    simp [hadmin, htr]
  rcases hout with ⟨c0, hc0⟩
  rw [hc0]
  intro j h
  have hj := assignSeqTimestamps_get c0 now env.assistantReply 0 j h
  refine ⟨?_, ?_, ?_⟩
  · rw [hj]; ring
  · rw [hj]; omega
  · intro k hk hjk
    have hk2 := assignSeqTimestamps_get c0 now env.assistantReply 0 k hk
    rw [hj, hk2]
    omega

/-- C2 witness: the amended theorem on the concrete Slack fixture with
two assistant replies and inbound timestamp 100: outbound timestamps
are 101 and 102. -/
theorem slack_outbound_timestamps_witness :
    (processSlackBotMessage envSlack 100 "cont_f" "conv_f" slackEventW slackUserNonAdmin
      dbSlack).outbound.map (fun r => r.created_at) = [101, 102] := by
  have h := slack_outbound_timestamps envSlack 100 "cont_f" "conv_f" slackEventW
    slackUserNonAdmin dbSlack orgW (by decide) rfl (by decide)
  have h0 := h 0 (by decide)
  have h1 := h 1 (by decide)
  decide

/-- C4: evaluating the code at the failing input — a successful run
with zero outbound messages (the most recent thread message is from the user).  The claim says the last_message_at of the conversation becomes
the maximum timestamp of the full batch (here 10, from the inbound message); the
code computes `Math.max()` of the empty outbound list instead and
writes `-Infinity` (`none`). -/
theorem empty_batch_last_message_at_bug :
    (sendMessage envC4 parseNone 10 reqContact dbW1).outcome = HttpOutcome.ok [] ∧
    (sendMessage envC4 parseNone 10 reqContact dbW1).db.conversations.map
      (fun c => c.last_message_at) = [none] ∧
    jsMathMax ([] : List Int) = none := by
  decide

/-- C10: in the Slack bot event path, given the organisation exists,
whether the assistant is invoked and a reply is posted depends only on
whether the sender is a Slack admin — for every non-admin sender both
happen, whatever the interrupted flag of the resolved conversation holds
(the flag is never read on this path). -/
theorem slack_admin_gate (env : SlackEnv) (now : Int)
    (freshContactId freshConvId : String) (data : SlackBotMessageEvent)
    (slackUser : SlackUser) (db : DBState) (org : Organisation)
    (horg : db.organisations.find? (fun o => o.id == data.organisation_id) = some org) :
    (processSlackBotMessage env now freshContactId freshConvId data slackUser
      db).assistantInvoked = !slackUser.is_admin ∧
    (processSlackBotMessage env now freshContactId freshConvId data slackUser
      db).postedReply = !slackUser.is_admin := by
  unfold processSlackBotMessage
  simp only [horg]
  cases hadm : slackUser.is_admin <;> simp [hadm] <;> split <;> simp

/-- C10 witness: the gate theorem at a concrete non-admin sender whose
resolved conversation is interrupted — the assistant is still invoked
and the reply still posted. -/
theorem slack_admin_gate_witness :
    dbSlack.conversations.map (fun c => c.interrupted) = [true] ∧
    slackUserNonAdmin.is_admin = false ∧
    (processSlackBotMessage envSlack 100 "cont_f" "conv_f" slackEventW slackUserNonAdmin
      dbSlack).assistantInvoked = true ∧
    (processSlackBotMessage envSlack 100 "cont_f" "conv_f" slackEventW slackUserNonAdmin
      dbSlack).postedReply = true := by
  have h := slack_admin_gate envSlack 100 "cont_f" "conv_f" slackEventW slackUserNonAdmin
    dbSlack orgW (by decide)
  exact ⟨by decide, rfl, by simpa using h.1, by simpa using h.2⟩

end Chatbot
